import Mathlib

/-
Verification of the jerk-limited trajectory generator (AccelCurve / AccelDesigner).

The C++ source computes with 32-bit floats; this development models the same
computations over the real numbers.  The class constant j_max (500000 in the
source) is threaded through every definition as an explicit parameter jmax so
that statements can also be instantiated at other jerk limits; the source
value is recorded as jMaxSrc below.  Division is the total real division of
Lean (x / 0 = 0); the one place the source can divide by zero is recorded in
the AccelDesigner state (field vm, the divisor of the cruise-duration term).
The diagnostic stream writes of the source (std::cerr / std::cout) are
modelled as Prop fields of the AccelDesigner state holding the exact branch
condition under which the source emits the message.
-/

namespace SigProc

/-- The class constant AccelCurve::j_max of the source. -/
def jMaxSrc : ℝ := 500000

/-- State of AccelCurve: one bounded-jerk velocity transition.
Fields mirror the private members of the C++ class. -/
structure AccelCurve where
  jm : ℝ
  am : ℝ
  t0 : ℝ
  t1 : ℝ
  t2 : ℝ
  t3 : ℝ
  v0 : ℝ
  v1 : ℝ
  v2 : ℝ
  v3 : ℝ
  x0 : ℝ
  x1 : ℝ
  x2 : ℝ
  x3 : ℝ
  tc : ℝ
  tm : ℝ

/-- AccelCurve::j(t).  The source returns the class constant j_max (resp.
-j_max) on the curve phases, independently of the sign field jm. -/
noncomputable def AccelCurve.j (c : AccelCurve) (jmax t : ℝ) : ℝ :=
  if t ≤ c.t0 then 0
  else if t ≤ c.t1 then jmax
  else if t ≤ c.t2 then 0
  else if t ≤ c.t3 then -jmax
  else 0

/-- AccelCurve::a(t). -/
noncomputable def AccelCurve.a (c : AccelCurve) (t : ℝ) : ℝ :=
  if t ≤ c.t0 then 0
  else if t ≤ c.t1 then c.jm * (t - c.t0)
  else if t ≤ c.t2 then c.am
  else if t ≤ c.t3 then -c.jm * (t - c.t3)
  else 0

/-- AccelCurve::v(t). -/
noncomputable def AccelCurve.v (c : AccelCurve) (t : ℝ) : ℝ :=
  if t ≤ c.t0 then c.v0
  else if t ≤ c.t1 then c.v0 + 0.50 * c.jm * (t - c.t0) * (t - c.t0)
  else if t ≤ c.t2 then c.v1 + c.am * (t - c.t1)
  else if t ≤ c.t3 then c.v3 - 0.50 * c.jm * (t - c.t3) * (t - c.t3)
  else c.v3

/-- AccelCurve::x(t). -/
noncomputable def AccelCurve.x (c : AccelCurve) (t : ℝ) : ℝ :=
  if t ≤ c.t0 then c.x0 + c.v0 * (t - c.t0)
  else if t ≤ c.t1 then
    c.x0 + c.v0 * (t - c.t0) + c.jm / 6 * (t - c.t0) * (t - c.t0) * (t - c.t0)
  else if t ≤ c.t2 then c.x1 + c.v1 * (t - c.t1) + c.am / 2 * (t - c.t1) * (t - c.t1)
  else if t ≤ c.t3 then
    c.x3 + c.v3 * (t - c.t3) + c.jm / 6 * (t - c.t3) * (t - c.t3) * (t - c.t3)
  else c.x3 + c.v3 * (t - c.t3)

/-- AccelCurve::t_end(). -/
def AccelCurve.t_end (c : AccelCurve) : ℝ := c.t3

/-- AccelCurve::v_end(). -/
def AccelCurve.v_end (c : AccelCurve) : ℝ := c.v3

/-- AccelCurve::x_end(). -/
def AccelCurve.x_end (c : AccelCurve) : ℝ := c.x3

/-- AccelCurve::calcTimeCurve(am) = abs(am) / j_max. -/
noncomputable def calcTimeCurve (jmax am : ℝ) : ℝ := |am| / jmax

/-- Sign choice of the maximum acceleration in AccelCurve::reset:
am = (v_end - v_start > 0) ? a_max : -a_max. -/
noncomputable def amOf (a_max v_start v_end : ℝ) : ℝ :=
  if v_end - v_start > 0 then a_max else -a_max

/-- Sign choice of the maximum jerk in AccelCurve::reset:
jm = (v_end - v_start > 0) ? j_max : -j_max. -/
noncomputable def jmOf (jmax v_start v_end : ℝ) : ℝ :=
  if v_end - v_start > 0 then jmax else -jmax

/-- Constant-acceleration (plateau) duration in AccelCurve::reset:
tm = (v3 - v0) / am - tc. -/
noncomputable def tmOf (jmax a_max v_start v_end : ℝ) : ℝ :=
  (v_end - v_start) / amOf a_max v_start v_end - calcTimeCurve jmax a_max

/-- Boundary instant t1 of AccelCurve::reset (t0 = 0): plateau branch
t1 = t0 + tc, triangle branch t1 = t0 + sqrt(tc / am * (v3 - v0)). -/
noncomputable def t1Of (jmax a_max v_start v_end : ℝ) : ℝ :=
  if tmOf jmax a_max v_start v_end > 0 then calcTimeCurve jmax a_max
  else Real.sqrt (calcTimeCurve jmax a_max / amOf a_max v_start v_end * (v_end - v_start))

/-- Boundary instant t2 of AccelCurve::reset: plateau branch t2 = t1 + tm,
triangle branch t2 = t1. -/
noncomputable def t2Of (jmax a_max v_start v_end : ℝ) : ℝ :=
  if tmOf jmax a_max v_start v_end > 0 then
    t1Of jmax a_max v_start v_end + tmOf jmax a_max v_start v_end
  else t1Of jmax a_max v_start v_end

/-- Boundary instant t3 of AccelCurve::reset: plateau branch t3 = t2 + tc,
triangle branch t3 = t2 + (t1 - t0) with t0 = 0. -/
noncomputable def t3Of (jmax a_max v_start v_end : ℝ) : ℝ :=
  if tmOf jmax a_max v_start v_end > 0 then
    t2Of jmax a_max v_start v_end + calcTimeCurve jmax a_max
  else t2Of jmax a_max v_start v_end + (t1Of jmax a_max v_start v_end - 0)

/-- AccelCurve::reset(a_max, v_start, v_end).  The source assigns the members
in order and computes v1, v2, x1, x2 by calling the evaluators on the object
being built (whose remaining members still hold their zero-initialized
values; those members are never read by the branches taken), and finally
x3 = x0 + (v0 + v3) / 2 * (t3 - t0). -/
noncomputable def AccelCurve.reset (jmax a_max v_start v_end : ℝ) : AccelCurve :=
  let s0 : AccelCurve :=
    { jm := jmOf jmax v_start v_end, am := amOf a_max v_start v_end,
      t0 := 0, t1 := t1Of jmax a_max v_start v_end,
      t2 := t2Of jmax a_max v_start v_end, t3 := t3Of jmax a_max v_start v_end,
      v0 := v_start, v1 := 0, v2 := 0, v3 := v_end,
      x0 := 0, x1 := 0, x2 := 0, x3 := 0,
      tc := calcTimeCurve jmax a_max, tm := tmOf jmax a_max v_start v_end }
  let s1 := { s0 with v1 := s0.v s0.t1 }
  let s2 := { s1 with v2 := s1.v s1.t2 }
  let s3 := { s2 with x1 := s2.x s2.t1 }
  let s4 := { s3 with x2 := s3.x s3.t2 }
  { s4 with x3 := s4.x0 + (s4.v0 + s4.v3) / 2 * (s4.t3 - s4.t0) }

/-- Real cube root, the model of std::cbrt (defined for negative input by
odd symmetry, as std::cbrt is). -/
noncomputable def cbrtR (x : ℝ) : ℝ :=
  if 0 ≤ x then x ^ ((1 : ℝ) / 3) else -((-x) ^ ((1 : ℝ) / 3))

/-- AccelCurve::calcVelocityEnd(a_max, vs, vt, d). -/
noncomputable def calcVelocityEnd (jmax a_max vs vt d : ℝ) : ℝ :=
  let tc := calcTimeCurve jmax a_max
  let am := if vt - vs > 0 then a_max else -a_max
  if d > (2 * vs + am / tc * tc * tc) * tc then
    let amtc := am * tc
    let D := amtc * amtc - 4 * (amtc * vs - vs * vs - 2 * am * d)
    (-amtc + Real.sqrt D) / 2
  else
    let a := vs
    let b := am * d * d / tc
    let aaa := a * a * a
    let c0 := 27 * (32 * aaa * b + 27 * b * b)
    let c1 := 16 * aaa + 27 * b
    if c0 ≥ 0 then
      let c2 := cbrtR ((Real.sqrt c0 + c1) / 2)
      (c2 + 4 * a * a / c2 - a) / 3
    else
      let c2 := Complex.cpow ⟨c1 / 2, Real.sqrt (-c0) / 2⟩ ((1 : ℂ) / 3)
      (c2.re * 2 - a) / 3

/-- AccelCurve::calcVelocityMax(am, vs, ve, d). -/
noncomputable def calcVelocityMax (jmax am vs ve d : ℝ) : ℝ :=
  let tc := calcTimeCurve jmax am
  let amtc := am * tc
  let D := amtc * amtc - 2 * (vs + ve) * amtc + 4 * am * d + 2 * (vs * vs + ve * ve)
  if D < 0 then vs
  else (-amtc + Real.sqrt D) / 2

/-- The branch condition under which calcVelocityMax writes its error line
to std::cerr (negative discriminant). -/
noncomputable def calcVelocityMaxInfeasible (jmax am vs ve d : ℝ) : Prop :=
  am * calcTimeCurve jmax am * (am * calcTimeCurve jmax am) -
      2 * (vs + ve) * (am * calcTimeCurve jmax am) + 4 * am * d +
      2 * (vs * vs + ve * ve) < 0

/-- AccelCurve::calcMinDistance(a_max, v_start, v_end): build a curve and
return its terminal position. -/
noncomputable def calcMinDistance (jmax a_max v_start v_end : ℝ) : ℝ :=
  (AccelCurve.reset jmax a_max v_start v_end).x_end

/-- State of AccelDesigner.  In addition to the members of the C++ class
(t0..t3, x0, x3, ac, dc) the model records the final peak velocity vm (the
local variable v_max of reset, the divisor of the cruise-duration term) and
the three diagnostic branch conditions of reset as Props. -/
structure AccelDesigner where
  t0 : ℝ
  t1 : ℝ
  t2 : ℝ
  t3 : ℝ
  x0 : ℝ
  x3 : ℝ
  ac : AccelCurve
  dc : AccelCurve
  vm : ℝ
  warnNeg : Prop
  errDist : Prop
  errTime : Prop

/-- Value of the local v_end after the distance-sign clamp of
AccelDesigner::reset (v_end = v_target, overwritten by v_start when
distance is at most 0). -/
noncomputable def vEnd1 (v_start v_target distance : ℝ) : ℝ :=
  if distance ≤ 0 then v_start else v_target

/-- Value of the local v_max after the distance-sign clamp of
AccelDesigner::reset (v_max = max of the three velocities, overwritten by
v_start when distance is at most 0). -/
noncomputable def vMax1 (v_start v_sat v_target distance : ℝ) : ℝ :=
  if distance ≤ 0 then v_start else max (max v_start v_sat) v_target

/-- Value of the local distance after the distance-sign clamp of
AccelDesigner::reset. -/
noncomputable def dist1 (distance : ℝ) : ℝ :=
  if distance ≤ 0 then 0 else distance

/-- Value of the local v_end after the reachable-end-velocity step of
AccelDesigner::reset. -/
noncomputable def vEnd2 (jmax a_max v_start v_target distance : ℝ) : ℝ :=
  if dist1 distance < calcMinDistance jmax a_max v_start (vEnd1 v_start v_target distance) then
    calcVelocityEnd jmax a_max v_start v_target (dist1 distance)
  else vEnd1 v_start v_target distance

/-- Value of the local v_max after the reachable-end-velocity step of
AccelDesigner::reset. -/
noncomputable def vMax2 (jmax a_max v_start v_sat v_target distance : ℝ) : ℝ :=
  if dist1 distance < calcMinDistance jmax a_max v_start (vEnd1 v_start v_target distance) then
    max v_start (vEnd2 jmax a_max v_start v_target distance)
  else vMax1 v_start v_sat v_target distance

/-- First build of the acceleration segment in AccelDesigner::reset. -/
noncomputable def acA (jmax a_max v_start v_sat v_target distance : ℝ) : AccelCurve :=
  AccelCurve.reset jmax a_max v_start (vMax2 jmax a_max v_start v_sat v_target distance)

/-- First build of the deceleration segment in AccelDesigner::reset. -/
noncomputable def dcA (jmax a_max v_start v_sat v_target distance : ℝ) : AccelCurve :=
  AccelCurve.reset jmax a_max (vMax2 jmax a_max v_start v_sat v_target distance)
    (vEnd2 jmax a_max v_start v_target distance)

/-- Value of the local v_max after the distance-constraint rebuild of
AccelDesigner::reset: when the two segments overshoot the distance, solve
for the peak, saturate at v_sat, then widen to cover v_start and v_end. -/
noncomputable def vMax3 (jmax a_max v_start v_sat v_target distance : ℝ) : ℝ :=
  if dist1 distance < (acA jmax a_max v_start v_sat v_target distance).x_end +
      (dcA jmax a_max v_start v_sat v_target distance).x_end then
    max (max (min (calcVelocityMax jmax a_max v_start
        (vEnd2 jmax a_max v_start v_target distance) (dist1 distance)) v_sat) v_start)
      (vEnd2 jmax a_max v_start v_target distance)
  else vMax2 jmax a_max v_start v_sat v_target distance

/-- Final acceleration segment of AccelDesigner::reset. -/
noncomputable def acB (jmax a_max v_start v_sat v_target distance : ℝ) : AccelCurve :=
  if dist1 distance < (acA jmax a_max v_start v_sat v_target distance).x_end +
      (dcA jmax a_max v_start v_sat v_target distance).x_end then
    AccelCurve.reset jmax a_max v_start (vMax3 jmax a_max v_start v_sat v_target distance)
  else acA jmax a_max v_start v_sat v_target distance

/-- Final deceleration segment of AccelDesigner::reset. -/
noncomputable def dcB (jmax a_max v_start v_sat v_target distance : ℝ) : AccelCurve :=
  if dist1 distance < (acA jmax a_max v_start v_sat v_target distance).x_end +
      (dcA jmax a_max v_start v_sat v_target distance).x_end then
    AccelCurve.reset jmax a_max (vMax3 jmax a_max v_start v_sat v_target distance)
      (vEnd2 jmax a_max v_start v_target distance)
  else dcA jmax a_max v_start v_sat v_target distance

/-- AccelDesigner::reset(a_max, v_start, v_sat, v_target, distance, x_start,
t_start).  The boundary instants follow the source verbatim:
t1 = t0 + ac.t_end(), t2 = t0 + ac.t_end() + (distance - ac.x_end() -
dc.x_end()) / v_max, t3 = t2 + dc.t_end(); x0 = x_start, x3 = x_start +
distance (with the clamped distance).  The three Prop fields hold the
diagnostic branch conditions: warning for distance at most 0; error when the
segments overshoot by more than 0.1; error when the instants are not weakly
increasing within e = 0.001.  The time-ordering check is modelled with the
float semantics of the cruise division: for v_max = 0 the float quotient is
NaN when the numerator is 0 (every comparison with NaN is false, so the
check fails) and plus or minus infinity otherwise (for plus infinity the
last two comparisons hold and the check reduces to its first conjunct; for
minus infinity the second comparison is false, so the check fails); for
v_max nonzero the instants are finite and the check is the real
condition. -/
noncomputable def AccelDesigner.reset
    (jmax a_max v_start v_sat v_target distance x_start t_start : ℝ) : AccelDesigner :=
  let ac := acB jmax a_max v_start v_sat v_target distance
  let dc := dcB jmax a_max v_start v_sat v_target distance
  let vm := vMax3 jmax a_max v_start v_sat v_target distance
  let d := dist1 distance
  let t1 := t_start + ac.t_end
  let t2 := t_start + ac.t_end + (d - ac.x_end - dc.x_end) / vm
  let t3 := t_start + ac.t_end + (d - ac.x_end - dc.x_end) / vm + dc.t_end
  { t0 := t_start, t1 := t1, t2 := t2, t3 := t3,
    x0 := x_start, x3 := x_start + d,
    ac := ac, dc := dc, vm := vm,
    warnNeg := distance ≤ 0,
    errDist := ac.x_end + dc.x_end > d + 0.1,
    errTime :=
      if vm = 0 then
        if d - ac.x_end - dc.x_end = 0 then True
        else if d - ac.x_end - dc.x_end > 0 then ¬(t_start ≤ t1 + 0.001)
        else True
      else ¬(t_start ≤ t1 + 0.001 ∧ t1 ≤ t2 + 0.001 ∧ t2 ≤ t3 + 0.001) }

/-- AccelDesigner::j(t): dispatch to the acceleration segment before t2,
else to the deceleration segment. -/
noncomputable def AccelDesigner.j (dzn : AccelDesigner) (jmax t : ℝ) : ℝ :=
  if t < dzn.t2 then dzn.ac.j jmax (t - dzn.t0) else dzn.dc.j jmax (t - dzn.t2)

/-- AccelDesigner::a(t). -/
noncomputable def AccelDesigner.a (dzn : AccelDesigner) (t : ℝ) : ℝ :=
  if t < dzn.t2 then dzn.ac.a (t - dzn.t0) else dzn.dc.a (t - dzn.t2)

/-- AccelDesigner::v(t). -/
noncomputable def AccelDesigner.v (dzn : AccelDesigner) (t : ℝ) : ℝ :=
  if t < dzn.t2 then dzn.ac.v (t - dzn.t0) else dzn.dc.v (t - dzn.t2)

/-- AccelDesigner::x(t). -/
noncomputable def AccelDesigner.x (dzn : AccelDesigner) (t : ℝ) : ℝ :=
  if t < dzn.t2 then dzn.x0 + dzn.ac.x (t - dzn.t0)
  else dzn.x3 - dzn.dc.x_end + dzn.dc.x (t - dzn.t2)

/-- AccelDesigner::t_end(). -/
def AccelDesigner.t_end (dzn : AccelDesigner) : ℝ := dzn.t3

/-- AccelDesigner::v_end(). -/
def AccelDesigner.v_end (dzn : AccelDesigner) : ℝ := dzn.dc.v_end

/-- AccelDesigner::x_end(). -/
def AccelDesigner.x_end (dzn : AccelDesigner) : ℝ := dzn.x3

/-- Selector for one of the four const evaluators. -/
inductive CurveQuery where
  | jq : CurveQuery
  | aq : CurveQuery
  | vq : CurveQuery
  | xq : CurveQuery

/-- One call of a const evaluator on an AccelCurve, modelled operationally:
the call returns the numeric answer together with the instance state after
the call (const methods leave the state unchanged). -/
noncomputable def AccelCurve.call (c : AccelCurve) (jmax : ℝ) (q : CurveQuery) (t : ℝ) :
    ℝ × AccelCurve :=
  match q with
  | CurveQuery.jq => (c.j jmax t, c)
  | CurveQuery.aq => (c.a t, c)
  | CurveQuery.vq => (c.v t, c)
  | CurveQuery.xq => (c.x t, c)

/-- One call of a const evaluator on an AccelDesigner, modelled
operationally as for AccelCurve.call. -/
noncomputable def AccelDesigner.call (dzn : AccelDesigner) (jmax : ℝ) (q : CurveQuery)
    (t : ℝ) : ℝ × AccelDesigner :=
  match q with
  | CurveQuery.jq => (dzn.j jmax t, dzn)
  | CurveQuery.aq => (dzn.a t, dzn)
  | CurveQuery.vq => (dzn.v t, dzn)
  | CurveQuery.xq => (dzn.x t, dzn)

/- Field projections of AccelCurve.reset, all definitional. -/

theorem curve_jm (jmax a vs ve : ℝ) :
    (AccelCurve.reset jmax a vs ve).jm = jmOf jmax vs ve := rfl

theorem curve_am (jmax a vs ve : ℝ) :
    (AccelCurve.reset jmax a vs ve).am = amOf a vs ve := rfl

theorem curve_t0 (jmax a vs ve : ℝ) :
    (AccelCurve.reset jmax a vs ve).t0 = 0 := rfl

theorem curve_t1 (jmax a vs ve : ℝ) :
    (AccelCurve.reset jmax a vs ve).t1 = t1Of jmax a vs ve := rfl

theorem curve_t2 (jmax a vs ve : ℝ) :
    (AccelCurve.reset jmax a vs ve).t2 = t2Of jmax a vs ve := rfl

theorem curve_t3 (jmax a vs ve : ℝ) :
    (AccelCurve.reset jmax a vs ve).t3 = t3Of jmax a vs ve := rfl

theorem curve_v0 (jmax a vs ve : ℝ) :
    (AccelCurve.reset jmax a vs ve).v0 = vs := rfl

theorem curve_v3 (jmax a vs ve : ℝ) :
    (AccelCurve.reset jmax a vs ve).v3 = ve := rfl

theorem curve_x0 (jmax a vs ve : ℝ) :
    (AccelCurve.reset jmax a vs ve).x0 = 0 := rfl

theorem curve_x3 (jmax a vs ve : ℝ) :
    (AccelCurve.reset jmax a vs ve).x3 =
      0 + (vs + ve) / 2 * (t3Of jmax a vs ve - 0) := rfl

theorem curve_v1 (jmax a vs ve : ℝ) :
    (AccelCurve.reset jmax a vs ve).v1 =
      AccelCurve.v
        { jm := jmOf jmax vs ve, am := amOf a vs ve,
          t0 := 0, t1 := t1Of jmax a vs ve,
          t2 := t2Of jmax a vs ve, t3 := t3Of jmax a vs ve,
          v0 := vs, v1 := 0, v2 := 0, v3 := ve,
          x0 := 0, x1 := 0, x2 := 0, x3 := 0,
          tc := calcTimeCurve jmax a, tm := tmOf jmax a vs ve }
        (t1Of jmax a vs ve) := rfl

theorem curve_x_end (jmax a vs ve : ℝ) :
    (AccelCurve.reset jmax a vs ve).x_end =
      0 + (vs + ve) / 2 * (t3Of jmax a vs ve - 0) := rfl

theorem curve_t_end (jmax a vs ve : ℝ) :
    (AccelCurve.reset jmax a vs ve).t_end = t3Of jmax a vs ve := rfl

/- Weak monotonicity of the boundary instants of a curve segment. -/

theorem calcTimeCurve_nonneg (jmax a : ℝ) (hj : 0 < jmax) :
    0 ≤ calcTimeCurve jmax a :=
  div_nonneg (abs_nonneg a) hj.le

theorem curve_mono (jmax a vs ve : ℝ) (hj : 0 < jmax) :
    (AccelCurve.reset jmax a vs ve).t0 ≤ (AccelCurve.reset jmax a vs ve).t1 ∧
    (AccelCurve.reset jmax a vs ve).t1 ≤ (AccelCurve.reset jmax a vs ve).t2 ∧
    (AccelCurve.reset jmax a vs ve).t2 ≤ (AccelCurve.reset jmax a vs ve).t3 := by
  have htc : 0 ≤ calcTimeCurve jmax a := calcTimeCurve_nonneg jmax a hj
  rw [curve_t0, curve_t1, curve_t2, curve_t3]
  unfold t3Of t2Of t1Of
  split_ifs with h
  · exact ⟨htc, by linarith, by linarith⟩
  · have hs : 0 ≤ Real.sqrt (calcTimeCurve jmax a / amOf a vs ve * (ve - vs)) :=
      Real.sqrt_nonneg _
    exact ⟨hs, le_refl _, by linarith⟩

/- Values of the evaluators strictly before t0 and strictly after t3. -/

theorem curve_j_low (c : AccelCurve) (jmax t : ℝ) (h : t ≤ c.t0) :
    c.j jmax t = 0 := by
  unfold AccelCurve.j
  rw [if_pos h]

theorem curve_a_low (c : AccelCurve) (t : ℝ) (h : t ≤ c.t0) :
    c.a t = 0 := by
  unfold AccelCurve.a
  rw [if_pos h]

theorem curve_v_low (c : AccelCurve) (t : ℝ) (h : t ≤ c.t0) :
    c.v t = c.v0 := by
  unfold AccelCurve.v
  rw [if_pos h]

theorem curve_x_low (c : AccelCurve) (t : ℝ) (h : t ≤ c.t0) :
    c.x t = c.x0 + c.v0 * (t - c.t0) := by
  unfold AccelCurve.x
  rw [if_pos h]

theorem curve_j_high (c : AccelCurve) (jmax t : ℝ) (h01 : c.t0 ≤ c.t1)
    (h12 : c.t1 ≤ c.t2) (h23 : c.t2 ≤ c.t3) (h : c.t3 < t) :
    c.j jmax t = 0 := by
  unfold AccelCurve.j
  rw [if_neg (by linarith), if_neg (by linarith), if_neg (by linarith),
    if_neg (by linarith)]

theorem curve_a_high (c : AccelCurve) (t : ℝ) (h01 : c.t0 ≤ c.t1)
    (h12 : c.t1 ≤ c.t2) (h23 : c.t2 ≤ c.t3) (h : c.t3 < t) :
    c.a t = 0 := by
  unfold AccelCurve.a
  rw [if_neg (by linarith), if_neg (by linarith), if_neg (by linarith),
    if_neg (by linarith)]

theorem curve_v_high (c : AccelCurve) (t : ℝ) (h01 : c.t0 ≤ c.t1)
    (h12 : c.t1 ≤ c.t2) (h23 : c.t2 ≤ c.t3) (h : c.t3 < t) :
    c.v t = c.v3 := by
  unfold AccelCurve.v
  rw [if_neg (by linarith), if_neg (by linarith), if_neg (by linarith),
    if_neg (by linarith)]

theorem curve_x_high (c : AccelCurve) (t : ℝ) (h01 : c.t0 ≤ c.t1)
    (h12 : c.t1 ≤ c.t2) (h23 : c.t2 ≤ c.t3) (h : c.t3 < t) :
    c.x t = c.x3 + c.v3 * (t - c.t3) := by
  unfold AccelCurve.x
  rw [if_neg (by linarith), if_neg (by linarith), if_neg (by linarith),
    if_neg (by linarith)]

/- Field projections of AccelDesigner.reset, all definitional. -/

theorem designer_t0 (jmax a vs vsat vt dist xs ts : ℝ) :
    (AccelDesigner.reset jmax a vs vsat vt dist xs ts).t0 = ts := rfl

theorem designer_t1 (jmax a vs vsat vt dist xs ts : ℝ) :
    (AccelDesigner.reset jmax a vs vsat vt dist xs ts).t1 =
      ts + (acB jmax a vs vsat vt dist).t_end := rfl

theorem designer_t2 (jmax a vs vsat vt dist xs ts : ℝ) :
    (AccelDesigner.reset jmax a vs vsat vt dist xs ts).t2 =
      ts + (acB jmax a vs vsat vt dist).t_end +
        (dist1 dist - (acB jmax a vs vsat vt dist).x_end -
          (dcB jmax a vs vsat vt dist).x_end) / vMax3 jmax a vs vsat vt dist := rfl

theorem designer_t3 (jmax a vs vsat vt dist xs ts : ℝ) :
    (AccelDesigner.reset jmax a vs vsat vt dist xs ts).t3 =
      ts + (acB jmax a vs vsat vt dist).t_end +
        (dist1 dist - (acB jmax a vs vsat vt dist).x_end -
          (dcB jmax a vs vsat vt dist).x_end) / vMax3 jmax a vs vsat vt dist +
        (dcB jmax a vs vsat vt dist).t_end := rfl

theorem designer_x0 (jmax a vs vsat vt dist xs ts : ℝ) :
    (AccelDesigner.reset jmax a vs vsat vt dist xs ts).x0 = xs := rfl

theorem designer_x3 (jmax a vs vsat vt dist xs ts : ℝ) :
    (AccelDesigner.reset jmax a vs vsat vt dist xs ts).x3 = xs + dist1 dist := rfl

theorem designer_ac (jmax a vs vsat vt dist xs ts : ℝ) :
    (AccelDesigner.reset jmax a vs vsat vt dist xs ts).ac =
      acB jmax a vs vsat vt dist := rfl

theorem designer_dc (jmax a vs vsat vt dist xs ts : ℝ) :
    (AccelDesigner.reset jmax a vs vsat vt dist xs ts).dc =
      dcB jmax a vs vsat vt dist := rfl

theorem designer_vm (jmax a vs vsat vt dist xs ts : ℝ) :
    (AccelDesigner.reset jmax a vs vsat vt dist xs ts).vm =
      vMax3 jmax a vs vsat vt dist := rfl

theorem designer_warnNeg (jmax a vs vsat vt dist xs ts : ℝ) :
    (AccelDesigner.reset jmax a vs vsat vt dist xs ts).warnNeg = (dist ≤ 0) := rfl

theorem designer_x_end (jmax a vs vsat vt dist xs ts : ℝ) :
    (AccelDesigner.reset jmax a vs vsat vt dist xs ts).x_end = xs + dist1 dist := rfl

theorem designer_errDist (jmax a vs vsat vt dist xs ts : ℝ) :
    (AccelDesigner.reset jmax a vs vsat vt dist xs ts).errDist =
      ((acB jmax a vs vsat vt dist).x_end + (dcB jmax a vs vsat vt dist).x_end >
        dist1 dist + 0.1) := rfl

theorem designer_errTime (jmax a vs vsat vt dist xs ts : ℝ) :
    (AccelDesigner.reset jmax a vs vsat vt dist xs ts).errTime =
      if vMax3 jmax a vs vsat vt dist = 0 then
        if dist1 dist - (acB jmax a vs vsat vt dist).x_end -
            (dcB jmax a vs vsat vt dist).x_end = 0 then True
        else if dist1 dist - (acB jmax a vs vsat vt dist).x_end -
            (dcB jmax a vs vsat vt dist).x_end > 0 then
          ¬(ts ≤ ts + (acB jmax a vs vsat vt dist).t_end + 0.001)
        else True
      else
        ¬(ts ≤ ts + (acB jmax a vs vsat vt dist).t_end + 0.001 ∧
          ts + (acB jmax a vs vsat vt dist).t_end ≤
            ts + (acB jmax a vs vsat vt dist).t_end +
              (dist1 dist - (acB jmax a vs vsat vt dist).x_end -
                (dcB jmax a vs vsat vt dist).x_end) / vMax3 jmax a vs vsat vt dist +
              0.001 ∧
          ts + (acB jmax a vs vsat vt dist).t_end +
              (dist1 dist - (acB jmax a vs vsat vt dist).x_end -
                (dcB jmax a vs vsat vt dist).x_end) / vMax3 jmax a vs vsat vt dist ≤
            ts + (acB jmax a vs vsat vt dist).t_end +
              (dist1 dist - (acB jmax a vs vsat vt dist).x_end -
                (dcB jmax a vs vsat vt dist).x_end) / vMax3 jmax a vs vsat vt dist +
              (dcB jmax a vs vsat vt dist).t_end + 0.001) := rfl

/-- The final segments of AccelDesigner::reset are both rebuilt from the
final peak velocity: when the rebuild branch is not taken, the peak is
unchanged, so the first build already has that form. -/
theorem acB_eq (jmax a vs vsat vt dist : ℝ) :
    acB jmax a vs vsat vt dist =
      AccelCurve.reset jmax a vs (vMax3 jmax a vs vsat vt dist) := by
  unfold acB vMax3
  split_ifs with h
  · rfl
  · rfl

theorem dcB_eq (jmax a vs vsat vt dist : ℝ) :
    dcB jmax a vs vsat vt dist =
      AccelCurve.reset jmax a (vMax3 jmax a vs vsat vt dist)
        (vEnd2 jmax a vs vt dist) := by
  unfold dcB vMax3
  split_ifs with h
  · rfl
  · rfl

/-- The gap between the last two composed instants is exactly the duration
of the deceleration segment. -/
theorem designer_t3_sub_t2 (jmax a vs vsat vt dist xs ts : ℝ) :
    (AccelDesigner.reset jmax a vs vsat vt dist xs ts).t3 -
      (AccelDesigner.reset jmax a vs vsat vt dist xs ts).t2 =
      (dcB jmax a vs vsat vt dist).t3 := by
  rw [designer_t3, designer_t2]
  unfold AccelCurve.t_end
  ring

/- A curve between equal velocities is fully degenerate: all instants and
the travelled distance are zero. -/

theorem tmOf_same (jmax a v : ℝ) : tmOf jmax a v v = -calcTimeCurve jmax a := by
  unfold tmOf
  rw [sub_self, zero_div]
  ring

theorem t1Of_same (jmax a v : ℝ) (hj : 0 < jmax) : t1Of jmax a v v = 0 := by
  unfold t1Of
  rw [tmOf_same]
  rw [if_neg (by have := calcTimeCurve_nonneg jmax a hj; linarith)]
  rw [sub_self, mul_zero, Real.sqrt_zero]

theorem t2Of_same (jmax a v : ℝ) (hj : 0 < jmax) : t2Of jmax a v v = 0 := by
  unfold t2Of
  rw [tmOf_same]
  rw [if_neg (by have := calcTimeCurve_nonneg jmax a hj; linarith)]
  exact t1Of_same jmax a v hj

theorem t3Of_same (jmax a v : ℝ) (hj : 0 < jmax) : t3Of jmax a v v = 0 := by
  unfold t3Of
  rw [tmOf_same]
  rw [if_neg (by have := calcTimeCurve_nonneg jmax a hj; linarith)]
  rw [t2Of_same jmax a v hj, t1Of_same jmax a v hj]
  ring

theorem curve_same_x_end (jmax a v : ℝ) (hj : 0 < jmax) :
    (AccelCurve.reset jmax a v v).x_end = 0 := by
  rw [curve_x_end, t3Of_same jmax a v hj]
  ring

theorem curve_same_t_end (jmax a v : ℝ) (hj : 0 < jmax) :
    (AccelCurve.reset jmax a v v).t_end = 0 := by
  rw [curve_t_end, t3Of_same jmax a v hj]

theorem calcMinDistance_same (jmax a v : ℝ) (hj : 0 < jmax) :
    calcMinDistance jmax a v v = 0 := by
  unfold calcMinDistance
  exact curve_same_x_end jmax a v hj

/-- Pipeline of AccelDesigner::reset on any call with distance at most 0:
the distance clamp fires, both segments are curves between equal velocities
v_start, all four boundary instants collapse to t_start (in the real model;
the float instants agree for v_start nonzero), the position does not move,
and the overshoot error never fires.  The time-ordering error fires exactly
when v_start = 0: there the cruise term is the float division 0/0 (NaN) and
the check fails; for v_start nonzero the cruise term is 0/v_start = 0 and
the check passes. -/
theorem designer_clamped (jmax a vs vsat vt dist xs ts : ℝ) (hd : dist ≤ 0)
    (hj : 0 < jmax) :
    (AccelDesigner.reset jmax a vs vsat vt dist xs ts).t0 = ts ∧
    (AccelDesigner.reset jmax a vs vsat vt dist xs ts).t1 = ts ∧
    (AccelDesigner.reset jmax a vs vsat vt dist xs ts).t2 = ts ∧
    (AccelDesigner.reset jmax a vs vsat vt dist xs ts).t3 = ts ∧
    (AccelDesigner.reset jmax a vs vsat vt dist xs ts).x_end = xs ∧
    (AccelDesigner.reset jmax a vs vsat vt dist xs ts).v_end = vs ∧
    ¬ (AccelDesigner.reset jmax a vs vsat vt dist xs ts).errDist ∧
    (vs ≠ 0 → ¬ (AccelDesigner.reset jmax a vs vsat vt dist xs ts).errTime) ∧
    (vs = 0 → (AccelDesigner.reset jmax a vs vsat vt dist xs ts).errTime) := by
  have hd1 : dist1 dist = 0 := by unfold dist1; rw [if_pos hd]
  have hE1 : vEnd1 vs vt dist = vs := by unfold vEnd1; rw [if_pos hd]
  have hM1 : vMax1 vs vsat vt dist = vs := by unfold vMax1; rw [if_pos hd]
  have hcond1 : ¬ (dist1 dist < calcMinDistance jmax a vs (vEnd1 vs vt dist)) := by
    rw [hd1, hE1, calcMinDistance_same jmax a vs hj]
    exact lt_irrefl 0
  have hE2 : vEnd2 jmax a vs vt dist = vs := by
    unfold vEnd2; rw [if_neg hcond1]; exact hE1
  have hM2 : vMax2 jmax a vs vsat vt dist = vs := by
    unfold vMax2; rw [if_neg hcond1]; exact hM1
  have hacA : acA jmax a vs vsat vt dist = AccelCurve.reset jmax a vs vs := by
    unfold acA; rw [hM2]
  have hdcA : dcA jmax a vs vsat vt dist = AccelCurve.reset jmax a vs vs := by
    unfold dcA; rw [hM2, hE2]
  have hcond2 : ¬ (dist1 dist <
      (acA jmax a vs vsat vt dist).x_end + (dcA jmax a vs vsat vt dist).x_end) := by
    rw [hd1, hacA, hdcA, curve_same_x_end jmax a vs hj]
    norm_num
  have hM3 : vMax3 jmax a vs vsat vt dist = vs := by
    unfold vMax3; rw [if_neg hcond2]; exact hM2
  have hacB : acB jmax a vs vsat vt dist = AccelCurve.reset jmax a vs vs := by
    unfold acB; rw [if_neg hcond2]; exact hacA
  have hdcB : dcB jmax a vs vsat vt dist = AccelCurve.reset jmax a vs vs := by
    unfold dcB; rw [if_neg hcond2]; exact hdcA
  have hte : (AccelCurve.reset jmax a vs vs).t_end = 0 := curve_same_t_end jmax a vs hj
  have hxe : (AccelCurve.reset jmax a vs vs).x_end = 0 := curve_same_x_end jmax a vs hj
  refine ⟨designer_t0 jmax a vs vsat vt dist xs ts, ?_, ?_, ?_, ?_, ?_, ?_, ?_, ?_⟩
  · rw [designer_t1, hacB, hte]; ring
  · rw [designer_t2, hacB, hdcB, hte, hxe, hd1, hM3]
    norm_num
  · rw [designer_t3, hacB, hdcB, hte, hxe, hd1, hM3]
    norm_num
  · rw [designer_x_end, hd1]; ring
  · show (AccelDesigner.reset jmax a vs vsat vt dist xs ts).dc.v_end = vs
    rw [designer_dc, hdcB]
    exact curve_v3 jmax a vs vs
  · rw [designer_errDist, hacB, hdcB, hxe, hd1]
    norm_num
  · intro hvs
    rw [designer_errTime, hacB, hdcB, hte, hxe, hd1, hM3, if_neg hvs]
    intro hcon
    refine hcon ⟨by norm_num, by norm_num, by norm_num⟩
  · intro hvs
    rw [designer_errTime, hacB, hdcB, hte, hxe, hd1, hM3, if_pos hvs,
      if_pos (by norm_num : (0 : ℝ) - 0 - 0 = 0)]
    trivial

/-- A curve between the two velocities 0 and 0 travels distance 0 (directly
from the trapezoid assignment, in either branch). -/
theorem curve_zero_x_end (jmax a : ℝ) : (AccelCurve.reset jmax a 0 0).x_end = 0 := by
  rw [curve_x_end]; ring

/-- Pipeline of AccelDesigner::reset at the all-zero input
(v_start = v_sat = v_target = 0, distance = 0): the clamp fires, no branch
changes the velocities, and the final peak velocity is 0 while both final
segments are the degenerate curve between velocity 0 and 0. -/
theorem designer_zero_pipeline (jmax a : ℝ) :
    vMax3 jmax a 0 0 0 0 = 0 ∧
    acB jmax a 0 0 0 0 = AccelCurve.reset jmax a 0 0 ∧
    dcB jmax a 0 0 0 0 = AccelCurve.reset jmax a 0 0 := by
  have hxz : (AccelCurve.reset jmax a 0 0).x_end = 0 := curve_zero_x_end jmax a
  have hd1 : dist1 (0 : ℝ) = 0 := by unfold dist1; rw [if_pos (le_refl 0)]
  have hE1 : vEnd1 0 0 (0 : ℝ) = 0 := by unfold vEnd1; rw [if_pos (le_refl 0)]
  have hM1 : vMax1 0 0 0 (0 : ℝ) = 0 := by unfold vMax1; rw [if_pos (le_refl 0)]
  have hcond1 : ¬ (dist1 (0 : ℝ) < calcMinDistance jmax a 0 (vEnd1 0 0 0)) := by
    rw [hd1, hE1]
    unfold calcMinDistance
    rw [hxz]
    exact lt_irrefl 0
  have hE2 : vEnd2 jmax a 0 0 0 = 0 := by
    unfold vEnd2; rw [if_neg hcond1]; exact hE1
  have hM2 : vMax2 jmax a 0 0 0 0 = 0 := by
    unfold vMax2; rw [if_neg hcond1]; exact hM1
  have hacA : acA jmax a 0 0 0 0 = AccelCurve.reset jmax a 0 0 := by
    unfold acA; rw [hM2]
  have hdcA : dcA jmax a 0 0 0 0 = AccelCurve.reset jmax a 0 0 := by
    unfold dcA; rw [hM2, hE2]
  have hcond2 : ¬ (dist1 (0 : ℝ) <
      (acA jmax a 0 0 0 0).x_end + (dcA jmax a 0 0 0 0).x_end) := by
    rw [hd1, hacA, hdcA, hxz]
    norm_num
  refine ⟨?_, ?_, ?_⟩
  · unfold vMax3; rw [if_neg hcond2]; exact hM2
  · unfold acB; rw [if_neg hcond2]; exact hacA
  · unfold dcB; rw [if_neg hcond2]; exact hdcA

/-- Behaviour of the composed evaluators strictly before t0, for any
designer state whose acceleration segment starts at local time 0 and whose
composed instants satisfy t0 at most t2. -/
theorem designer_low_any (dzn : AccelDesigner) (jmax t : ℝ)
    (hact0 : dzn.ac.t0 = 0) (hacx0 : dzn.ac.x0 = 0)
    (h02 : dzn.t0 ≤ dzn.t2) (h : t < dzn.t0) :
    dzn.j jmax t = 0 ∧ dzn.a t = 0 ∧ dzn.v t = dzn.ac.v0 ∧
    dzn.x t = dzn.x0 + dzn.ac.v0 * (t - dzn.t0) := by
  have hdisp : t < dzn.t2 := lt_of_lt_of_le h h02
  have harg : t - dzn.t0 ≤ dzn.ac.t0 := by rw [hact0]; linarith
  refine ⟨?_, ?_, ?_, ?_⟩
  · unfold AccelDesigner.j; rw [if_pos hdisp]; exact curve_j_low _ _ _ harg
  · unfold AccelDesigner.a; rw [if_pos hdisp]; exact curve_a_low _ _ harg
  · unfold AccelDesigner.v; rw [if_pos hdisp]; exact curve_v_low _ _ harg
  · unfold AccelDesigner.x
    rw [if_pos hdisp, curve_x_low _ _ harg, hacx0, hact0]
    ring

/-- Behaviour of the composed evaluators strictly after t3, for any designer
state whose deceleration segment has weakly increasing instants and spans
exactly the gap from t2 to t3. -/
theorem designer_high_any (dzn : AccelDesigner) (jmax t : ℝ)
    (hd01 : dzn.dc.t0 ≤ dzn.dc.t1) (hd12 : dzn.dc.t1 ≤ dzn.dc.t2)
    (hd23 : dzn.dc.t2 ≤ dzn.dc.t3)
    (h32 : dzn.dc.t3 = dzn.t3 - dzn.t2)
    (h23 : dzn.t2 ≤ dzn.t3) (h : dzn.t3 < t) :
    dzn.j jmax t = 0 ∧ dzn.a t = 0 ∧ dzn.v t = dzn.dc.v3 ∧
    dzn.x t = dzn.x3 + dzn.dc.v3 * (t - dzn.t3) := by
  have hndisp : ¬ (t < dzn.t2) := not_lt.mpr (le_of_lt (lt_of_le_of_lt h23 h))
  have harg : dzn.dc.t3 < t - dzn.t2 := by rw [h32]; linarith
  refine ⟨?_, ?_, ?_, ?_⟩
  · unfold AccelDesigner.j; rw [if_neg hndisp]
    exact curve_j_high _ _ _ hd01 hd12 hd23 harg
  · unfold AccelDesigner.a; rw [if_neg hndisp]
    exact curve_a_high _ _ hd01 hd12 hd23 harg
  · unfold AccelDesigner.v; rw [if_neg hndisp]
    exact curve_v_high _ _ hd01 hd12 hd23 harg
  · unfold AccelDesigner.x
    rw [if_neg hndisp, curve_x_high _ _ hd01 hd12 hd23 harg]
    unfold AccelCurve.x_end
    rw [h32]
    ring

/-- C1: for every AccelDesigner reset with distance > 0, the terminal
position accessor satisfies x_end() - x_start = distance exactly (hence in
particular within the 0.1 tolerance, for any distance, including those
above calcMinDistance). -/
theorem claim_C1_distance_roundtrip (jmax a vs vsat vt dist xs ts : ℝ)
    (hd : 0 < dist) :
    (AccelDesigner.reset jmax a vs vsat vt dist xs ts).x_end - xs = dist ∧
    |(AccelDesigner.reset jmax a vs vsat vt dist xs ts).x_end - xs - dist| ≤ 0.1 := by
  have h1 : dist1 dist = dist := by unfold dist1; rw [if_neg (not_le.mpr hd)]
  have h2 : (AccelDesigner.reset jmax a vs vsat vt dist xs ts).x_end - xs = dist := by
    rw [designer_x_end, h1]; ring
  refine ⟨h2, ?_⟩
  rw [h2, sub_self, abs_zero]
  norm_num

theorem claim_C1_distance_roundtrip_witness :
    (AccelDesigner.reset 500000 1 0 1 0 90 0 0).x_end - 0 = 90 ∧
    |(AccelDesigner.reset 500000 1 0 1 0 90 0 0).x_end - 0 - 90| ≤ 0.1 :=
  claim_C1_distance_roundtrip 500000 1 0 1 0 90 0 0 (by norm_num)

/-- C3: calcVelocityMax computes tc = a_max / j_max, amtc = a_max * tc and
the discriminant D = amtc^2 - 2(vs+ve)amtc + 4 a_max d + 2(vs^2+ve^2); for
D at least 0 it returns (-amtc + sqrt D)/2, for D negative it returns vs
unchanged (and that is exactly the condition under which the error line is
written); a numeric result is returned in every case. -/
theorem claim_C3_velocity_max_formula (jmax am vs ve d : ℝ) (ha : 0 < am) :
    (0 ≤ am * (am / jmax) * (am * (am / jmax)) - 2 * (vs + ve) * (am * (am / jmax)) +
        4 * am * d + 2 * (vs * vs + ve * ve) →
      calcVelocityMax jmax am vs ve d =
        (-(am * (am / jmax)) +
          Real.sqrt (am * (am / jmax) * (am * (am / jmax)) -
            2 * (vs + ve) * (am * (am / jmax)) + 4 * am * d +
            2 * (vs * vs + ve * ve))) / 2) ∧
    (am * (am / jmax) * (am * (am / jmax)) - 2 * (vs + ve) * (am * (am / jmax)) +
        4 * am * d + 2 * (vs * vs + ve * ve) < 0 →
      calcVelocityMax jmax am vs ve d = vs) ∧
    (calcVelocityMaxInfeasible jmax am vs ve d ↔
      am * (am / jmax) * (am * (am / jmax)) - 2 * (vs + ve) * (am * (am / jmax)) +
        4 * am * d + 2 * (vs * vs + ve * ve) < 0) := by
  have habs : calcTimeCurve jmax am = am / jmax := by
    unfold calcTimeCurve; rw [abs_of_pos ha]
  have hsrc : calcVelocityMax jmax am vs ve d =
      if am * calcTimeCurve jmax am * (am * calcTimeCurve jmax am) -
          2 * (vs + ve) * (am * calcTimeCurve jmax am) + 4 * am * d +
          2 * (vs * vs + ve * ve) < 0 then vs
      else (-(am * calcTimeCurve jmax am) +
        Real.sqrt (am * calcTimeCurve jmax am * (am * calcTimeCurve jmax am) -
          2 * (vs + ve) * (am * calcTimeCurve jmax am) + 4 * am * d +
          2 * (vs * vs + ve * ve))) / 2 := rfl
  rw [hsrc, habs]
  refine ⟨?_, ?_, ?_⟩
  · intro hD; rw [if_neg (not_lt.mpr hD)]
  · intro hD; rw [if_pos hD]
  · unfold calcVelocityMaxInfeasible
    rw [habs]

theorem claim_C3_velocity_max_formula_witness :
    (0 ≤ 1 * (1 / 500000) * (1 * (1 / 500000)) -
        2 * ((0 : ℝ) + 0) * (1 * (1 / 500000)) + 4 * 1 * 1 + 2 * (0 * 0 + 0 * 0) →
      calcVelocityMax 500000 1 0 0 1 =
        (-(1 * (1 / 500000)) +
          Real.sqrt (1 * (1 / 500000) * (1 * (1 / 500000)) -
            2 * ((0 : ℝ) + 0) * (1 * (1 / 500000)) + 4 * 1 * 1 +
            2 * (0 * 0 + 0 * 0))) / 2) ∧
    (1 * (1 / 500000) * (1 * (1 / 500000)) - 2 * ((0 : ℝ) + 0) * (1 * (1 / 500000)) +
        4 * 1 * 1 + 2 * (0 * 0 + 0 * 0) < 0 →
      calcVelocityMax 500000 1 0 0 1 = 0) ∧
    (calcVelocityMaxInfeasible 500000 1 0 0 1 ↔
      1 * (1 / 500000) * (1 * (1 / 500000)) - 2 * ((0 : ℝ) + 0) * (1 * (1 / 500000)) +
        4 * 1 * 1 + 2 * (0 * 0 + 0 * 0) < 0) :=
  claim_C3_velocity_max_formula 500000 1 0 0 1 (by norm_num)

/-- C4: for every AccelCurve reset, the travelled distance equals the
trapezoidal area under the boundary velocities:
x_end() - x0 = (v0 + v3)/2 * (t3 - t0), exactly. -/
theorem claim_C4_distance_law (jmax a vs ve : ℝ) (_ha : 0 < a) :
    (AccelCurve.reset jmax a vs ve).x_end - (AccelCurve.reset jmax a vs ve).x0 =
      ((AccelCurve.reset jmax a vs ve).v0 + (AccelCurve.reset jmax a vs ve).v3) / 2 *
        ((AccelCurve.reset jmax a vs ve).t3 - (AccelCurve.reset jmax a vs ve).t0) := by
  rw [curve_x_end, curve_x0, curve_v0, curve_v3, curve_t3, curve_t0]
  ring

theorem claim_C4_distance_law_witness :
    (AccelCurve.reset 500000 1 2 3).x_end - (AccelCurve.reset 500000 1 2 3).x0 =
      ((AccelCurve.reset 500000 1 2 3).v0 + (AccelCurve.reset 500000 1 2 3).v3) / 2 *
        ((AccelCurve.reset 500000 1 2 3).t3 - (AccelCurve.reset 500000 1 2 3).t0) :=
  claim_C4_distance_law 500000 1 2 3 (by norm_num)

/-- C5 counterexample: for v_start = v_end = 0 (with a_max = 1 and the
source jerk constant) the source picks am = -a_max, whose sign is -1,
while sign(v3 - v0) = sign 0 = 0, so sign(am) = sign(v3 - v0) fails. -/
theorem claim_C5_counterexample :
    Real.sign ((AccelCurve.reset 500000 1 0 0).am) ≠
      Real.sign ((AccelCurve.reset 500000 1 0 0).v3 -
        (AccelCurve.reset 500000 1 0 0).v0) := by
  rw [curve_am, curve_v3, curve_v0]
  have h1 : amOf 1 0 0 = -1 := by
    unfold amOf
    rw [if_neg (by norm_num : ¬((0 : ℝ) - 0 > 0))]
  rw [h1, sub_self, Real.sign_zero, Real.sign_of_neg (by norm_num : (-1 : ℝ) < 0)]
  norm_num

/-- C5 amended: the boundary instants of every AccelCurve reset are weakly
increasing, and sign(am) = sign(jm) always; that common sign equals
sign(v3 - v0) whenever v3 is different from v0, while for v3 = v0 the source
chooses the negative branch am = -a_max, jm = -j_max (so the sign equation
with sign 0 = 0 fails only in that degenerate case). -/
theorem claim_C5_amended (jmax a vs ve : ℝ) (ha : 0 < a) (hj : 0 < jmax) :
    ((AccelCurve.reset jmax a vs ve).t0 ≤ (AccelCurve.reset jmax a vs ve).t1 ∧
      (AccelCurve.reset jmax a vs ve).t1 ≤ (AccelCurve.reset jmax a vs ve).t2 ∧
      (AccelCurve.reset jmax a vs ve).t2 ≤ (AccelCurve.reset jmax a vs ve).t3) ∧
    Real.sign ((AccelCurve.reset jmax a vs ve).am) =
      Real.sign ((AccelCurve.reset jmax a vs ve).jm) ∧
    ((AccelCurve.reset jmax a vs ve).v3 ≠ (AccelCurve.reset jmax a vs ve).v0 →
      Real.sign ((AccelCurve.reset jmax a vs ve).am) =
        Real.sign ((AccelCurve.reset jmax a vs ve).v3 -
          (AccelCurve.reset jmax a vs ve).v0)) ∧
    ((AccelCurve.reset jmax a vs ve).v3 = (AccelCurve.reset jmax a vs ve).v0 →
      (AccelCurve.reset jmax a vs ve).am = -a ∧
      (AccelCurve.reset jmax a vs ve).jm = -jmax) := by
  refine ⟨curve_mono jmax a vs ve hj, ?_, ?_, ?_⟩
  · rw [curve_am, curve_jm]
    unfold amOf jmOf
    by_cases h : ve - vs > 0
    · rw [if_pos h, if_pos h, Real.sign_of_pos ha, Real.sign_of_pos hj]
    · rw [if_neg h, if_neg h, Real.sign_of_neg (by linarith),
        Real.sign_of_neg (by linarith)]
  · rw [curve_am, curve_v3, curve_v0]
    intro hne
    unfold amOf
    by_cases h : ve - vs > 0
    · rw [if_pos h, Real.sign_of_pos ha, Real.sign_of_pos h]
    · have hlt : ve - vs < 0 := by
        rcases lt_or_eq_of_le (not_lt.mp h) with h1 | h1
        · exact h1
        · exact absurd (by linarith : ve = vs) hne
      rw [if_neg h, Real.sign_of_neg (by linarith), Real.sign_of_neg hlt]
  · rw [curve_am, curve_jm, curve_v3, curve_v0]
    intro heq
    unfold amOf jmOf
    rw [if_neg (by rw [heq]; simp), if_neg (by rw [heq]; simp)]
    exact ⟨rfl, rfl⟩

theorem claim_C5_amended_witness :
    ((AccelCurve.reset 500000 1 0 1).t0 ≤ (AccelCurve.reset 500000 1 0 1).t1 ∧
      (AccelCurve.reset 500000 1 0 1).t1 ≤ (AccelCurve.reset 500000 1 0 1).t2 ∧
      (AccelCurve.reset 500000 1 0 1).t2 ≤ (AccelCurve.reset 500000 1 0 1).t3) ∧
    Real.sign ((AccelCurve.reset 500000 1 0 1).am) =
      Real.sign ((AccelCurve.reset 500000 1 0 1).jm) ∧
    ((AccelCurve.reset 500000 1 0 1).v3 ≠ (AccelCurve.reset 500000 1 0 1).v0 →
      Real.sign ((AccelCurve.reset 500000 1 0 1).am) =
        Real.sign ((AccelCurve.reset 500000 1 0 1).v3 -
          (AccelCurve.reset 500000 1 0 1).v0)) ∧
    ((AccelCurve.reset 500000 1 0 1).v3 = (AccelCurve.reset 500000 1 0 1).v0 →
      (AccelCurve.reset 500000 1 0 1).am = -1 ∧
      (AccelCurve.reset 500000 1 0 1).jm = -500000) :=
  claim_C5_amended 500000 1 0 1 (by norm_num) (by norm_num)

/-- C6 counterexample: on reset(a_max, v, v, v, 0, x_start, t_start) with
a_max = 1, v = 1 the NegativeDistance warning branch does fire, because the
source guard is distance <= 0, which holds at distance = 0; this refutes
the part of the claim asserting that no anomaly is signaled. -/
theorem claim_C6_counterexample :
    (AccelDesigner.reset 500000 1 1 1 1 0 0 0).warnNeg := by
  rw [designer_warnNeg]

/-- C6 amended: reset(a_max, v, v, v, 0, x_start, t_start) with a_max > 0
and v nonzero yields t_end() = t_start and x_end() = x_start, but the
NegativeDistance warning IS signaled, since the source guard distance <= 0
includes the boundary distance = 0.  (For v = 0 the cruise term divides by
zero, cf. the C10 theorem; the equalities here are stated for v nonzero,
where the real-arithmetic model agrees with the float code.) -/
theorem claim_C6_amended (jmax a v xs ts : ℝ) (_ha : 0 < a) (hj : 0 < jmax)
    (_hv : v ≠ 0) :
    (AccelDesigner.reset jmax a v v v 0 xs ts).t_end = ts ∧
    (AccelDesigner.reset jmax a v v v 0 xs ts).x_end = xs ∧
    (AccelDesigner.reset jmax a v v v 0 xs ts).warnNeg := by
  obtain ⟨h0, h1, h2, h3, hx, hv2, he1, het1, het0⟩ :=
    designer_clamped jmax a v v v 0 xs ts (le_refl 0) hj
  refine ⟨?_, hx, ?_⟩
  · show (AccelDesigner.reset jmax a v v v 0 xs ts).t3 = ts
    exact h3
  · rw [designer_warnNeg]

theorem claim_C6_amended_witness :
    (AccelDesigner.reset 500000 1 1 1 1 0 0 0).t_end = 0 ∧
    (AccelDesigner.reset 500000 1 1 1 1 0 0 0).x_end = 0 ∧
    (AccelDesigner.reset 500000 1 1 1 1 0 0 0).warnNeg :=
  claim_C6_amended 500000 1 1 0 0 (by norm_num) (by norm_num) (by norm_num)

/-- C7 counterexample: at reset(a_max = 1, v_start = 0, v_sat = 0,
v_target = 0, distance = 0, x_start = 0, t_start = 0), an input the claim
covers (distance <= 0), the anomaly is not a warning only: besides the
warning, the time-ordering error branch fires, because the clamp makes
v_max = 0 and the cruise term is the division 0/0 (NaN in the float
source), so the check t0 <= t1 <= t2 <= t3 fails and the source prints
the Time Point error. -/
theorem claim_C7_counterexample :
    (AccelDesigner.reset 500000 1 0 0 0 0 0 0).warnNeg ∧
    (AccelDesigner.reset 500000 1 0 0 0 0 0 0).errTime := by
  obtain ⟨hvz, hacB0, hdcB0⟩ := designer_zero_pipeline 500000 1
  have hd1 : dist1 (0 : ℝ) = 0 := by unfold dist1; rw [if_pos (le_refl 0)]
  constructor
  · rw [designer_warnNeg]
  · rw [designer_errTime, hvz, if_pos (by norm_num : (0 : ℝ) = 0), hd1, hacB0,
      hdcB0, curve_zero_x_end, if_pos (by norm_num : (0 : ℝ) - 0 - 0 = 0)]
    trivial

/-- C7 amended: for every reset with distance <= 0 and v_start nonzero the
anomaly is a warning only and execution continues: the warning Prop holds,
the inputs are clamped to a zero-motion trajectory (v_end = v_max = v_start
and distance = 0), the produced profile is complete (x_end() = x_start and
v_end() = v_start), and neither error branch (distance overrun, time
ordering) fires.  For v_start = 0 the cruise term is the float division
0/0 and the time-ordering error fires as well (see the counterexample), so
the warning-only guarantee needs v_start nonzero. -/
theorem claim_C7_negative_distance_clamp (jmax a vs vsat vt dist xs ts : ℝ)
    (hd : dist ≤ 0) (hj : 0 < jmax) (hv : vs ≠ 0) :
    (AccelDesigner.reset jmax a vs vsat vt dist xs ts).warnNeg ∧
    vEnd1 vs vt dist = vs ∧
    vMax1 vs vsat vt dist = vs ∧
    dist1 dist = 0 ∧
    (AccelDesigner.reset jmax a vs vsat vt dist xs ts).x_end = xs ∧
    (AccelDesigner.reset jmax a vs vsat vt dist xs ts).v_end = vs ∧
    ¬ (AccelDesigner.reset jmax a vs vsat vt dist xs ts).errDist ∧
    ¬ (AccelDesigner.reset jmax a vs vsat vt dist xs ts).errTime := by
  obtain ⟨h0, h1, h2, h3, hx, hv2, he1, het1, het0⟩ :=
    designer_clamped jmax a vs vsat vt dist xs ts hd hj
  refine ⟨?_, ?_, ?_, ?_, hx, hv2, he1, het1 hv⟩
  · rw [designer_warnNeg]; exact hd
  · unfold vEnd1; rw [if_pos hd]
  · unfold vMax1; rw [if_pos hd]
  · unfold dist1; rw [if_pos hd]

theorem claim_C7_negative_distance_clamp_witness :
    (AccelDesigner.reset 500000 1 2 3 4 (-5) 6 7).warnNeg ∧
    vEnd1 2 4 (-5) = 2 ∧
    vMax1 2 3 4 (-5) = 2 ∧
    dist1 (-5) = 0 ∧
    (AccelDesigner.reset 500000 1 2 3 4 (-5) 6 7).x_end = 6 ∧
    (AccelDesigner.reset 500000 1 2 3 4 (-5) 6 7).v_end = 2 ∧
    ¬ (AccelDesigner.reset 500000 1 2 3 4 (-5) 6 7).errDist ∧
    ¬ (AccelDesigner.reset 500000 1 2 3 4 (-5) 6 7).errTime :=
  claim_C7_negative_distance_clamp 500000 1 2 3 4 (-5) 6 7 (by norm_num)
    (by norm_num) (by norm_num)

/-- C9: the four evaluators are pure: a call (modelled as returning the
value together with the post-call state) leaves the instance unchanged, and
a repeated identical call returns the same value, for AccelCurve and
AccelDesigner alike. -/
theorem claim_C9_evaluators_pure (c : AccelCurve) (dzn : AccelDesigner)
    (jmax : ℝ) (q : CurveQuery) (t : ℝ) :
    (c.call jmax q t).2 = c ∧
    ((c.call jmax q t).2.call jmax q t).1 = (c.call jmax q t).1 ∧
    (dzn.call jmax q t).2 = dzn ∧
    ((dzn.call jmax q t).2.call jmax q t).1 = (dzn.call jmax q t).1 := by
  cases q <;> exact ⟨rfl, rfl, rfl, rfl⟩

/-- C10: at the public input reset(a_max, 0, 0, 0, 0) the chosen peak
velocity v_max is 0, and the cruise duration term of t2 (and t3) is the
division (distance - ac.x_end() - dc.x_end()) / v_max, so the source
divides by zero there (the model records the divisor in the field vm). -/
theorem claim_C10_cruise_division_by_zero (jmax a xs ts : ℝ) (_ha : 0 < a) :
    (AccelDesigner.reset jmax a 0 0 0 0 xs ts).vm = 0 ∧
    (AccelDesigner.reset jmax a 0 0 0 0 xs ts).t2 =
      (AccelDesigner.reset jmax a 0 0 0 0 xs ts).t1 +
        (dist1 0 - (AccelDesigner.reset jmax a 0 0 0 0 xs ts).ac.x_end -
          (AccelDesigner.reset jmax a 0 0 0 0 xs ts).dc.x_end) /
          (AccelDesigner.reset jmax a 0 0 0 0 xs ts).vm := by
  have hxz : (AccelCurve.reset jmax a 0 0).x_end = 0 := by
    rw [curve_x_end]; ring
  have hd1 : dist1 (0 : ℝ) = 0 := by unfold dist1; rw [if_pos (le_refl 0)]
  have hE1 : vEnd1 0 0 (0 : ℝ) = 0 := by unfold vEnd1; rw [if_pos (le_refl 0)]
  have hM1 : vMax1 0 0 0 (0 : ℝ) = 0 := by unfold vMax1; rw [if_pos (le_refl 0)]
  have hcond1 : ¬ (dist1 (0 : ℝ) < calcMinDistance jmax a 0 (vEnd1 0 0 0)) := by
    rw [hd1, hE1]
    unfold calcMinDistance
    rw [hxz]
    exact lt_irrefl 0
  have hE2 : vEnd2 jmax a 0 0 0 = 0 := by
    unfold vEnd2; rw [if_neg hcond1]; exact hE1
  have hM2 : vMax2 jmax a 0 0 0 0 = 0 := by
    unfold vMax2; rw [if_neg hcond1]; exact hM1
  have hacA : acA jmax a 0 0 0 0 = AccelCurve.reset jmax a 0 0 := by
    unfold acA; rw [hM2]
  have hdcA : dcA jmax a 0 0 0 0 = AccelCurve.reset jmax a 0 0 := by
    unfold dcA; rw [hM2, hE2]
  have hcond2 : ¬ (dist1 (0 : ℝ) <
      (acA jmax a 0 0 0 0).x_end + (dcA jmax a 0 0 0 0).x_end) := by
    rw [hd1, hacA, hdcA, hxz]
    norm_num
  have hM3 : vMax3 jmax a 0 0 0 0 = 0 := by
    unfold vMax3; rw [if_neg hcond2]; exact hM2
  constructor
  · rw [designer_vm]; exact hM3
  · rw [designer_t2, designer_t1, designer_ac, designer_dc, designer_vm]

theorem claim_C10_cruise_division_by_zero_witness :
    (AccelDesigner.reset 500000 1 0 0 0 0 0 0).vm = 0 ∧
    (AccelDesigner.reset 500000 1 0 0 0 0 0 0).t2 =
      (AccelDesigner.reset 500000 1 0 0 0 0 0 0).t1 +
        (dist1 0 - (AccelDesigner.reset 500000 1 0 0 0 0 0 0).ac.x_end -
          (AccelDesigner.reset 500000 1 0 0 0 0 0 0).dc.x_end) /
          (AccelDesigner.reset 500000 1 0 0 0 0 0 0).vm :=
  claim_C10_cruise_division_by_zero 500000 1 0 0 (by norm_num)

/-- C2 counterexample: the position evaluator does not clamp to the
boundary position outside [t0, t3]: for the curve built from
(a_max, v_start, v_end) = (1, 1, 1) (source jerk constant), the time -1
lies before t0, yet x(-1) = x0 + v0 * (-1 - t0) = -1, not x0 = 0. -/
theorem claim_C2_counterexample :
    (-1 : ℝ) < (AccelCurve.reset 500000 1 1 1).t0 ∧
    (AccelCurve.reset 500000 1 1 1).x (-1) ≠ (AccelCurve.reset 500000 1 1 1).x0 := by
  constructor
  · rw [curve_t0]; norm_num
  · have h : (-1 : ℝ) ≤ (AccelCurve.reset 500000 1 1 1).t0 := by
      rw [curve_t0]; norm_num
    rw [curve_x_low _ _ h, curve_x0, curve_v0, curve_t0]
    norm_num

/-- C2 amended: outside [t0, t3] the evaluators of AccelCurve and
AccelDesigner return zero jerk, zero acceleration and the boundary
velocity, while the position extrapolates linearly from the boundary with
the boundary velocity: x(t) = x0 + v0 (t - t0) before t0 and
x(t) = x3 + v3 (t - t3) after t3 (constant only when that velocity is
zero).  For the composer the dispatch is stated under the time-ordering
invariant t0 at most t2 at most t3 of its composed instants. -/
theorem claim_C2_amended (jmax a vs ve vsat vt dist xs ts t : ℝ) (hj : 0 < jmax)
    (h02 : (AccelDesigner.reset jmax a vs vsat vt dist xs ts).t0 ≤
      (AccelDesigner.reset jmax a vs vsat vt dist xs ts).t2)
    (h23 : (AccelDesigner.reset jmax a vs vsat vt dist xs ts).t2 ≤
      (AccelDesigner.reset jmax a vs vsat vt dist xs ts).t3) :
    (t ≤ (AccelCurve.reset jmax a vs ve).t0 →
      (AccelCurve.reset jmax a vs ve).j jmax t = 0 ∧
      (AccelCurve.reset jmax a vs ve).a t = 0 ∧
      (AccelCurve.reset jmax a vs ve).v t = (AccelCurve.reset jmax a vs ve).v0 ∧
      (AccelCurve.reset jmax a vs ve).x t =
        (AccelCurve.reset jmax a vs ve).x0 +
          (AccelCurve.reset jmax a vs ve).v0 *
            (t - (AccelCurve.reset jmax a vs ve).t0)) ∧
    ((AccelCurve.reset jmax a vs ve).t3 < t →
      (AccelCurve.reset jmax a vs ve).j jmax t = 0 ∧
      (AccelCurve.reset jmax a vs ve).a t = 0 ∧
      (AccelCurve.reset jmax a vs ve).v t = (AccelCurve.reset jmax a vs ve).v3 ∧
      (AccelCurve.reset jmax a vs ve).x t =
        (AccelCurve.reset jmax a vs ve).x3 +
          (AccelCurve.reset jmax a vs ve).v3 *
            (t - (AccelCurve.reset jmax a vs ve).t3)) ∧
    (t < (AccelDesigner.reset jmax a vs vsat vt dist xs ts).t0 →
      (AccelDesigner.reset jmax a vs vsat vt dist xs ts).j jmax t = 0 ∧
      (AccelDesigner.reset jmax a vs vsat vt dist xs ts).a t = 0 ∧
      (AccelDesigner.reset jmax a vs vsat vt dist xs ts).v t =
        (AccelDesigner.reset jmax a vs vsat vt dist xs ts).ac.v0 ∧
      (AccelDesigner.reset jmax a vs vsat vt dist xs ts).x t =
        (AccelDesigner.reset jmax a vs vsat vt dist xs ts).x0 +
          (AccelDesigner.reset jmax a vs vsat vt dist xs ts).ac.v0 *
            (t - (AccelDesigner.reset jmax a vs vsat vt dist xs ts).t0)) ∧
    ((AccelDesigner.reset jmax a vs vsat vt dist xs ts).t3 < t →
      (AccelDesigner.reset jmax a vs vsat vt dist xs ts).j jmax t = 0 ∧
      (AccelDesigner.reset jmax a vs vsat vt dist xs ts).a t = 0 ∧
      (AccelDesigner.reset jmax a vs vsat vt dist xs ts).v t =
        (AccelDesigner.reset jmax a vs vsat vt dist xs ts).dc.v3 ∧
      (AccelDesigner.reset jmax a vs vsat vt dist xs ts).x t =
        (AccelDesigner.reset jmax a vs vsat vt dist xs ts).x3 +
          (AccelDesigner.reset jmax a vs vsat vt dist xs ts).dc.v3 *
            (t - (AccelDesigner.reset jmax a vs vsat vt dist xs ts).t3)) := by
  obtain ⟨hc01, hc12, hc23⟩ := curve_mono jmax a vs ve hj
  have hact0 : (AccelDesigner.reset jmax a vs vsat vt dist xs ts).ac.t0 = 0 := by
    rw [designer_ac, acB_eq, curve_t0]
  have hacx0 : (AccelDesigner.reset jmax a vs vsat vt dist xs ts).ac.x0 = 0 := by
    rw [designer_ac, acB_eq, curve_x0]
  obtain ⟨hd01, hd12, hd23⟩ :=
    curve_mono jmax a (vMax3 jmax a vs vsat vt dist) (vEnd2 jmax a vs vt dist) hj
  have hdcEq : (AccelDesigner.reset jmax a vs vsat vt dist xs ts).dc =
      AccelCurve.reset jmax a (vMax3 jmax a vs vsat vt dist)
        (vEnd2 jmax a vs vt dist) := by
    rw [designer_dc, dcB_eq]
  have h32 : (AccelDesigner.reset jmax a vs vsat vt dist xs ts).dc.t3 =
      (AccelDesigner.reset jmax a vs vsat vt dist xs ts).t3 -
        (AccelDesigner.reset jmax a vs vsat vt dist xs ts).t2 := by
    rw [designer_dc]
    exact (designer_t3_sub_t2 jmax a vs vsat vt dist xs ts).symm
  refine ⟨?_, ?_, ?_, ?_⟩
  · intro h
    exact ⟨curve_j_low _ _ _ h, curve_a_low _ _ h, curve_v_low _ _ h,
      curve_x_low _ _ h⟩
  · intro h
    exact ⟨curve_j_high _ _ _ hc01 hc12 hc23 h, curve_a_high _ _ hc01 hc12 hc23 h,
      curve_v_high _ _ hc01 hc12 hc23 h, curve_x_high _ _ hc01 hc12 hc23 h⟩
  · intro h
    exact designer_low_any _ jmax t hact0 hacx0 h02 h
  · intro h
    refine designer_high_any _ jmax t ?_ ?_ ?_ h32 h23 h
    · rw [hdcEq]; exact hd01
    · rw [hdcEq]; exact hd12
    · rw [hdcEq]; exact hd23

theorem claim_C2_amended_witness :
    ((5 : ℝ) ≤ (AccelCurve.reset 500000 1 1 1).t0 →
      (AccelCurve.reset 500000 1 1 1).j 500000 5 = 0 ∧
      (AccelCurve.reset 500000 1 1 1).a 5 = 0 ∧
      (AccelCurve.reset 500000 1 1 1).v 5 = (AccelCurve.reset 500000 1 1 1).v0 ∧
      (AccelCurve.reset 500000 1 1 1).x 5 =
        (AccelCurve.reset 500000 1 1 1).x0 +
          (AccelCurve.reset 500000 1 1 1).v0 *
            (5 - (AccelCurve.reset 500000 1 1 1).t0)) ∧
    ((AccelCurve.reset 500000 1 1 1).t3 < 5 →
      (AccelCurve.reset 500000 1 1 1).j 500000 5 = 0 ∧
      (AccelCurve.reset 500000 1 1 1).a 5 = 0 ∧
      (AccelCurve.reset 500000 1 1 1).v 5 = (AccelCurve.reset 500000 1 1 1).v3 ∧
      (AccelCurve.reset 500000 1 1 1).x 5 =
        (AccelCurve.reset 500000 1 1 1).x3 +
          (AccelCurve.reset 500000 1 1 1).v3 *
            (5 - (AccelCurve.reset 500000 1 1 1).t3)) ∧
    ((5 : ℝ) < (AccelDesigner.reset 500000 1 1 1 1 0 0 0).t0 →
      (AccelDesigner.reset 500000 1 1 1 1 0 0 0).j 500000 5 = 0 ∧
      (AccelDesigner.reset 500000 1 1 1 1 0 0 0).a 5 = 0 ∧
      (AccelDesigner.reset 500000 1 1 1 1 0 0 0).v 5 =
        (AccelDesigner.reset 500000 1 1 1 1 0 0 0).ac.v0 ∧
      (AccelDesigner.reset 500000 1 1 1 1 0 0 0).x 5 =
        (AccelDesigner.reset 500000 1 1 1 1 0 0 0).x0 +
          (AccelDesigner.reset 500000 1 1 1 1 0 0 0).ac.v0 *
            (5 - (AccelDesigner.reset 500000 1 1 1 1 0 0 0).t0)) ∧
    ((AccelDesigner.reset 500000 1 1 1 1 0 0 0).t3 < 5 →
      (AccelDesigner.reset 500000 1 1 1 1 0 0 0).j 500000 5 = 0 ∧
      (AccelDesigner.reset 500000 1 1 1 1 0 0 0).a 5 = 0 ∧
      (AccelDesigner.reset 500000 1 1 1 1 0 0 0).v 5 =
        (AccelDesigner.reset 500000 1 1 1 1 0 0 0).dc.v3 ∧
      (AccelDesigner.reset 500000 1 1 1 1 0 0 0).x 5 =
        (AccelDesigner.reset 500000 1 1 1 1 0 0 0).x3 +
          (AccelDesigner.reset 500000 1 1 1 1 0 0 0).dc.v3 *
            (5 - (AccelDesigner.reset 500000 1 1 1 1 0 0 0).t3)) := by
  have hcl := designer_clamped 500000 1 1 1 1 0 0 0 (le_refl 0) (by norm_num)
  exact claim_C2_amended 500000 1 1 1 1 1 0 0 0 5 (by norm_num)
    (by rw [hcl.1, hcl.2.2.1]) (by rw [hcl.2.2.1, hcl.2.2.2.1])

/- Numeric evaluation of the known-good scenario
reset(3600, 720, 720, 0, 90, 0, 0) at jerk limit 240000. -/

theorem sc8_tc : calcTimeCurve 240000 3600 = 0.015 := by
  unfold calcTimeCurve
  rw [abs_of_pos (by norm_num : (0 : ℝ) < 3600)]
  norm_num

theorem sc8_amD : amOf 3600 720 0 = -3600 := by
  unfold amOf
  rw [if_neg (by norm_num : ¬((0 : ℝ) - 720 > 0))]

theorem sc8_jmD : jmOf 240000 720 0 = -240000 := by
  unfold jmOf
  rw [if_neg (by norm_num : ¬((0 : ℝ) - 720 > 0))]

theorem sc8_tmD : tmOf 240000 3600 720 0 = 0.185 := by
  unfold tmOf
  rw [sc8_amD, sc8_tc]
  norm_num

theorem sc8_t1D : t1Of 240000 3600 720 0 = 0.015 := by
  unfold t1Of
  rw [sc8_tmD, if_pos (by norm_num : (0.185 : ℝ) > 0), sc8_tc]

theorem sc8_t2D : t2Of 240000 3600 720 0 = 0.2 := by
  unfold t2Of
  rw [sc8_tmD, if_pos (by norm_num : (0.185 : ℝ) > 0), sc8_t1D]
  norm_num

theorem sc8_t3D : t3Of 240000 3600 720 0 = 0.215 := by
  unfold t3Of
  rw [sc8_tmD, if_pos (by norm_num : (0.185 : ℝ) > 0), sc8_t2D, sc8_tc]
  norm_num

theorem sc8_xD : (AccelCurve.reset 240000 3600 720 0).x_end = 77.4 := by
  rw [curve_x_end, sc8_t3D]
  norm_num

theorem sc8_v1D : (AccelCurve.reset 240000 3600 720 0).v1 = 693 := by
  rw [curve_v1, sc8_t1D, sc8_jmD]
  unfold AccelCurve.v
  dsimp only
  rw [if_neg (by norm_num : ¬((0.015 : ℝ) ≤ 0)), if_pos (le_refl (0.015 : ℝ))]
  norm_num

theorem sc8_vA : ∀ s : ℝ, (AccelCurve.reset 240000 3600 720 720).v s = 720 := by
  intro s
  have h1 : t1Of 240000 3600 720 720 = 0 := t1Of_same 240000 3600 720 (by norm_num)
  have h2 : t2Of 240000 3600 720 720 = 0 := t2Of_same 240000 3600 720 (by norm_num)
  have h3 : t3Of 240000 3600 720 720 = 0 := t3Of_same 240000 3600 720 (by norm_num)
  unfold AccelCurve.v
  rw [curve_t0, curve_t1, curve_t2, curve_t3, curve_v0, curve_v3, h1, h2, h3]
  split_ifs <;> rfl

theorem sc8_vD : ∀ s : ℝ, 0 ≤ (AccelCurve.reset 240000 3600 720 0).v s ∧
    (AccelCurve.reset 240000 3600 720 0).v s ≤ 720 := by
  intro s
  unfold AccelCurve.v
  rw [curve_t0, curve_t1, curve_t2, curve_t3, curve_v0, curve_v3, curve_jm, curve_am,
    sc8_v1D, sc8_t1D, sc8_t2D, sc8_t3D, sc8_jmD, sc8_amD]
  split_ifs with h1 h2 h3 h4
  · constructor <;> norm_num
  · have hs0 : 0 < s := not_le.mp h1
    have hss : s * s ≤ 0.015 * 0.015 := mul_le_mul h2 h2 hs0.le (by norm_num)
    constructor <;> nlinarith [mul_self_nonneg s, hss]
  · have hs : (0.015 : ℝ) < s := not_le.mp h2
    constructor <;> linarith
  · have hs : (0.2 : ℝ) < s := not_le.mp h3
    have hgap : (0.215 - s) * (0.215 - s) ≤ 0.015 * 0.015 :=
      mul_le_mul (by linarith) (by linarith) (by linarith) (by norm_num)
    constructor
    · nlinarith [mul_self_nonneg (s - 0.215)]
    · nlinarith [hgap]
  · constructor <;> norm_num

theorem sc8_d1 : dist1 (90 : ℝ) = 90 := by
  unfold dist1
  rw [if_neg (by norm_num : ¬((90 : ℝ) ≤ 0))]

theorem sc8_vE1 : vEnd1 720 0 (90 : ℝ) = 0 := by
  unfold vEnd1
  rw [if_neg (by norm_num : ¬((90 : ℝ) ≤ 0))]

theorem sc8_vM1 : vMax1 720 720 0 (90 : ℝ) = 720 := by
  unfold vMax1
  rw [if_neg (by norm_num : ¬((90 : ℝ) ≤ 0)), max_self]
  exact max_eq_left (by norm_num)

theorem sc8_minD : calcMinDistance 240000 3600 720 0 = 77.4 := by
  unfold calcMinDistance
  exact sc8_xD

theorem sc8_cond1 :
    ¬ (dist1 (90 : ℝ) < calcMinDistance 240000 3600 720 (vEnd1 720 0 90)) := by
  rw [sc8_d1, sc8_vE1, sc8_minD]
  norm_num

theorem sc8_vE2 : vEnd2 240000 3600 720 0 90 = 0 := by
  unfold vEnd2
  rw [if_neg sc8_cond1]
  exact sc8_vE1

theorem sc8_vM2 : vMax2 240000 3600 720 720 0 90 = 720 := by
  unfold vMax2
  rw [if_neg sc8_cond1]
  exact sc8_vM1

theorem sc8_acA : acA 240000 3600 720 720 0 90 = AccelCurve.reset 240000 3600 720 720 := by
  unfold acA
  rw [sc8_vM2]

theorem sc8_dcA : dcA 240000 3600 720 720 0 90 = AccelCurve.reset 240000 3600 720 0 := by
  unfold dcA
  rw [sc8_vM2, sc8_vE2]

theorem sc8_xA : (AccelCurve.reset 240000 3600 720 720).x_end = 0 :=
  curve_same_x_end 240000 3600 720 (by norm_num)

theorem sc8_tA : (AccelCurve.reset 240000 3600 720 720).t_end = 0 :=
  curve_same_t_end 240000 3600 720 (by norm_num)

theorem sc8_cond2 : ¬ (dist1 (90 : ℝ) <
    (acA 240000 3600 720 720 0 90).x_end + (dcA 240000 3600 720 720 0 90).x_end) := by
  rw [sc8_d1, sc8_acA, sc8_dcA, sc8_xA, sc8_xD]
  norm_num

theorem sc8_vM3 : vMax3 240000 3600 720 720 0 90 = 720 := by
  unfold vMax3
  rw [if_neg sc8_cond2]
  exact sc8_vM2

theorem sc8_acB : acB 240000 3600 720 720 0 90 = AccelCurve.reset 240000 3600 720 720 := by
  unfold acB
  rw [if_neg sc8_cond2]
  exact sc8_acA

theorem sc8_dcB : dcB 240000 3600 720 720 0 90 = AccelCurve.reset 240000 3600 720 0 := by
  unfold dcB
  rw [if_neg sc8_cond2]
  exact sc8_dcA

theorem sc8_tD : (AccelCurve.reset 240000 3600 720 0).t_end = 0.215 := by
  rw [curve_t_end, sc8_t3D]

theorem sc8_T1 : (AccelDesigner.reset 240000 3600 720 720 0 90 0 0).t1 = 0 := by
  rw [designer_t1, sc8_acB, sc8_tA]
  norm_num

theorem sc8_T2 : (AccelDesigner.reset 240000 3600 720 720 0 90 0 0).t2 = 0.0175 := by
  rw [designer_t2, sc8_acB, sc8_dcB, sc8_tA, sc8_xA, sc8_xD, sc8_d1, sc8_vM3]
  norm_num

theorem sc8_T3 : (AccelDesigner.reset 240000 3600 720 720 0 90 0 0).t3 = 0.2325 := by
  rw [designer_t3, sc8_acB, sc8_dcB, sc8_tA, sc8_xA, sc8_xD, sc8_d1, sc8_vM3, sc8_tD]
  norm_num

theorem sc8_X : (AccelDesigner.reset 240000 3600 720 720 0 90 0 0).x_end = 90 := by
  rw [designer_x_end, sc8_d1]
  norm_num

/-- C8: the scenario a_max = 3600, v_start = v_sat = 720, v_target = 0,
distance = 90, x_start = t_start = 0, at jerk limit 240000 (the value of
the test in the repository entry point) yields weakly increasing boundary
instants, x_end() = 90 exactly (hence within 0.1), and a velocity that
stays within [0, 720] over the whole of [t0, t3]. -/
theorem claim_C8_scenario :
    (AccelDesigner.reset 240000 3600 720 720 0 90 0 0).t0 ≤
      (AccelDesigner.reset 240000 3600 720 720 0 90 0 0).t1 ∧
    (AccelDesigner.reset 240000 3600 720 720 0 90 0 0).t1 ≤
      (AccelDesigner.reset 240000 3600 720 720 0 90 0 0).t2 ∧
    (AccelDesigner.reset 240000 3600 720 720 0 90 0 0).t2 ≤
      (AccelDesigner.reset 240000 3600 720 720 0 90 0 0).t3 ∧
    |(AccelDesigner.reset 240000 3600 720 720 0 90 0 0).x_end - 90| ≤ 0.1 ∧
    ∀ t : ℝ, (AccelDesigner.reset 240000 3600 720 720 0 90 0 0).t0 ≤ t →
      t ≤ (AccelDesigner.reset 240000 3600 720 720 0 90 0 0).t3 →
      0 ≤ (AccelDesigner.reset 240000 3600 720 720 0 90 0 0).v t ∧
      (AccelDesigner.reset 240000 3600 720 720 0 90 0 0).v t ≤ 720 := by
  refine ⟨?_, ?_, ?_, ?_, ?_⟩
  · rw [designer_t0, sc8_T1]
  · rw [sc8_T1, sc8_T2]; norm_num
  · rw [sc8_T2, sc8_T3]; norm_num
  · rw [sc8_X, sub_self, abs_zero]; norm_num
  · intro t ht0 ht3
    unfold AccelDesigner.v
    by_cases hc : t < (AccelDesigner.reset 240000 3600 720 720 0 90 0 0).t2
    · rw [if_pos hc, designer_ac, sc8_acB, sc8_vA]
      norm_num
    · rw [if_neg hc, designer_dc, sc8_dcB]
      exact sc8_vD _

theorem claim_C8_scenario_witness :
    (0 : ℝ) ≤ (AccelDesigner.reset 240000 3600 720 720 0 90 0 0).v 0.1 ∧
    (AccelDesigner.reset 240000 3600 720 720 0 90 0 0).v 0.1 ≤ 720 :=
  claim_C8_scenario.2.2.2.2 0.1 (by rw [designer_t0]; norm_num)
    (by rw [sc8_T3]; norm_num)

end SigProc
